import Mathlib

/-!
# The update feed script (`website/scripts/updates.js`)

A shallow embedding of the script: the `DOMContentLoaded` handler with its
`fetch(...).then(...).then(...).catch(...)` chain, and `createUpdateElement`.

The pieces of the JavaScript platform the script relies on are embedded as far
as the script uses them:

* decoded JSON data (`Json`) and the values a property read can give (`JSValue`);
* property reads for the names the script reads (`getProp`);
* the string conversion a template literal applies to a substitution
  (`toStringJS`);
* a promise chain, as explicit passing of "fulfilled with / rejected with";
* the container element, as the list of its children.
-/

namespace UpdateFeed

/-! ## Values -/

/-- Errors that the script can meet. `fetch` rejects with a `TypeError` on a
network failure or with an `AbortError`; `response.json()` rejects with a
`SyntaxError` when the body is not JSON; reading a property of `null` or of
`undefined`, calling something that is not a function and converting an object
without a usable `toString` raise a `TypeError`. -/
inductive JSError where
  | typeError
  | syntaxError
  | abortError
deriving DecidableEq, Repr

/-- Data decoded from a JSON text. A number is represented by the text that the
number-to-string conversion gives for it: the script does no arithmetic, it
only ever converts values to strings. An object is its list of own properties;
when a key occurs twice the first occurrence is the property. -/
inductive Json where
  | null
  | bool (b : Bool)
  | number (text : String)
  | string (s : String)
  | array (items : List Json)
  | object (props : List (String × Json))
deriving Repr

/-- The values that an expression of the script can evaluate to: decoded data,
`undefined` (an absent property), or a built-in function found on a prototype
(`Array.prototype.forEach`, `String.prototype.link`). -/
inductive JSValue where
  | undefined
  | json (v : Json)
  | builtin (name : String)
deriving Repr

/-- Own property lookup in an object: the value of the first property named `k`. -/
def lookup : List (String × Json) → String → Option Json
  | [], _ => none
  | (k', v) :: rest, k => if k' = k then some v else lookup rest k

/-- Whether the object has an own property named `k`. -/
def hasKey (props : List (String × Json)) (k : String) : Bool :=
  (lookup props k).isSome

/-- The property read `v.k`, for the property names the script reads
(`updates`, `forEach`, `date`, `type`, `title`, `description`, `link`).

* reading a property of `undefined` or `null` raises a `TypeError`;
* an object gives its own property, else `undefined` (none of the names is on
  `Object.prototype`);
* an array gives `Array.prototype.forEach` for `forEach`, else `undefined`;
* a string gives `String.prototype.link` for `link`, else `undefined`;
* a boolean, a number and a function give `undefined`. -/
def getProp : JSValue → String → Except JSError JSValue
  | .undefined, _ => .error .typeError
  | .json .null, _ => .error .typeError
  | .json (.object props), k =>
    match lookup props k with
    | some v => .ok (.json v)
    | none => .ok .undefined
  | .json (.array _), k => if k = "forEach" then .ok (.builtin "forEach") else .ok .undefined
  | .json (.string _), k => if k = "link" then .ok (.builtin "link") else .ok .undefined
  | .json (.bool _), _ => .ok .undefined
  | .json (.number _), _ => .ok .undefined
  | .builtin _, _ => .ok .undefined

mutual
/-- The string conversion of decoded data (`ToString`).

An array is converted by `Array.prototype.join`. An object is converted by
`Object.prototype.toString`, which gives `[object Object]`, unless it has an
own property `toString`: decoded data is never a function, so that property is
not callable, `valueOf` gives no primitive either, and the conversion raises a
`TypeError`. -/
def Json.toStr : Json → Except JSError String
  | .null => .ok "null"
  | .bool true => .ok "true"
  | .bool false => .ok "false"
  | .number text => .ok text
  | .string s => .ok s
  | .array items => Json.join items
  | .object props =>
    if hasKey props "toString" then .error .typeError else .ok "[object Object]"
/-- The elements of an array joined with commas, as `Array.prototype.join` does:
`null` contributes the empty string, every other element its conversion. -/
def Json.join : List Json → Except JSError String
  | [] => .ok ""
  | [.null] => .ok ""
  | [x] => Json.toStr x
  | .null :: rest =>
    match Json.join rest with
    | .error e => .error e
    | .ok b => .ok ("," ++ b)
  | x :: rest =>
    match Json.toStr x with
    | .error e => .error e
    | .ok a =>
      match Json.join rest with
      | .error e => .error e
      | .ok b => .ok (a ++ "," ++ b)
end

/-- The string conversion that a template literal applies to a substitution. -/
def toStringJS : JSValue → Except JSError String
  | .undefined => .ok "undefined"
  | .json v => v.toStr
  | .builtin name => .ok ("function " ++ name ++ "() \x7b [native code] \x7d")

/-! ## Template literals -/

/-- A piece of a template literal of `createUpdateElement`: literal text, or a
substitution `${update.field}`. -/
inductive TemplatePart where
  | text (s : String)
  | subst (field : String)
deriving DecidableEq, Repr

/-- Evaluation of a template literal, left to right: each substitution reads
the property of `update` and converts it to a string; the first error ends the
evaluation. -/
def evalTemplate (update : JSValue) : List TemplatePart → Except JSError String
  | [] => .ok ""
  | .text s :: rest =>
    match evalTemplate update rest with
    | .error e => .error e
    | .ok t => .ok (s ++ t)
  | .subst field :: rest =>
    match getProp update field with
    | .error e => .error e
    | .ok v =>
      match toStringJS v with
      | .error e => .error e
      | .ok a =>
        match evalTemplate update rest with
        | .error e => .error e
        | .ok t => .ok (a ++ t)

/-- The template literal assigned to `div.className`. -/
def classNameTemplate : List TemplatePart :=
  [.text "update-item ", .subst "type"]

/-- The template literal assigned to `div.innerHTML`. -/
def innerHTMLTemplate : List TemplatePart :=
  [.text "\n        <div class=\"update-header\">\n            <span class=\"update-date\">",
   .subst "date",
   .text "</span>\n            <span class=\"update-type\">",
   .subst "type",
   .text "</span>\n        </div>\n        <h3 class=\"update-title\">",
   .subst "title",
   .text "</h3>\n        <p class=\"update-description\">",
   .subst "description",
   .text "</p>\n        <a href=\"",
   .subst "link",
   .text "\" class=\"update-link\">Learn more</a>\n    "]

/-! ## The document -/

/-- An element built by the script: its tag name, its `className` and the
markup assigned to its `innerHTML`. -/
structure Element where
  tagName : String
  className : String
  innerHTML : String
deriving DecidableEq, Repr

/-- Source function `createUpdateElement(update)`: create a `div`, assign its `className`, then
its `innerHTML`, and return it. -/
def createUpdateElement (update : JSValue) : Except JSError Element :=
  match evalTemplate update classNameTemplate with
  | .error e => .error e
  | .ok cls =>
    match evalTemplate update innerHTMLTemplate with
    | .error e => .error e
    | .ok html => .ok { tagName := "div", className := cls, innerHTML := html }

/-- A child of the container element: an element attached with `appendChild`,
or content installed by assigning markup to the container's `innerHTML`. -/
inductive Child where
  | element (e : Element)
  | markup (html : String)
deriving DecidableEq, Repr

/-- The part of the page the script touches: the children of the element with
id `updateFeed` (`none` when `getElementById` found no such element, so that the
constant `updateFeed` is `null`), and what `console.error` has logged. -/
structure Page where
  updateFeed : Option (List Child)
  console : List (String × JSError)
deriving DecidableEq, Repr

/-- A response that `fetch` fulfilled with: its HTTP status and its body. -/
structure Response where
  status : Nat
  body : String
deriving DecidableEq, Repr

/-- The markup that the catch callback assigns to the container. -/
def errorMarkup : String :=
  "<p class=\"error\">Unable to load updates. Please try again later.</p>"

/-- The label that the catch callback passes to `console.error`. -/
def errorLabel : String := "Error loading updates:"

/-! ## The handler -/

/-- The callback of `forEach`: build the element of `update`, then append it to
the container. Appending to a container that is `null` raises a `TypeError`. -/
def renderUpdate (update : Json) (page : Page) : Except JSError Page :=
  match createUpdateElement (.json update) with
  | .error e => .error e
  | .ok updateElement =>
    match page.updateFeed with
    | none => .error .typeError
    | some children => .ok { page with updateFeed := some (children ++ [.element updateElement]) }

/-- The loop of `Array.prototype.forEach` with the callback `renderUpdate`: the
elements in index order; the first error ends the loop and leaves the page as
it was when the error was raised. -/
def forEach : List Json → Page → Page × Except JSError Unit
  | [], page => (page, .ok ())
  | update :: rest, page =>
    match renderUpdate update page with
    | .error e => (page, .error e)
    | .ok page' => forEach rest page'

/-- The second `then` callback, `data.updates.forEach(...)`: read `data.updates`,
read its `forEach`, and call it. Only an array has a callable `forEach`. -/
def renderUpdates (data : Json) (page : Page) : Page × Except JSError Unit :=
  match getProp (.json data) "updates" with
  | .error e => (page, .error e)
  | .ok updates =>
    match getProp updates "forEach" with
    | .error e => (page, .error e)
    | .ok (.builtin _) =>
      match updates with
      | .json (.array items) => forEach items page
      | _ => (page, .error .typeError)
    | .ok _ => (page, .error .typeError)

/-- The `catch` callback: log the error, then assign the error markup to the
container's `innerHTML`, which replaces all its children. Assigning to a
property of `null` raises a `TypeError`. -/
def showError (error : JSError) (page : Page) : Page × Except JSError Unit :=
  match page.updateFeed with
  | none =>
    ({ page with console := page.console ++ [(errorLabel, error)] }, .error .typeError)
  | some _ =>
    ({ updateFeed := some [.markup errorMarkup],
       console := page.console ++ [(errorLabel, error)] }, .ok ())

/-- The `DOMContentLoaded` handler, from the moment `fetch` settles:
`fetched` is what the promise returned by `fetch` settled to, `jsonParse` is the
platform's JSON decoder behind `response.json()`. The result is the page after
the chain has settled, and what the last promise of the chain settled to
(`.ok ()`: fulfilled, `.error e`: rejected with `e`). -/
def handler (jsonParse : String → Except JSError Json) (fetched : Except JSError Response)
    (page : Page) : Page × Except JSError Unit :=
  match fetched with
  | .error e => showError e page
  | .ok response =>
    match jsonParse response.body with
    | .error e => showError e page
    | .ok data =>
      match renderUpdates data page with
      | (page', .error e) => showError e page'
      | (page', .ok ()) => (page', .ok ())

/-! ## Vocabulary of the specification -/

/-- Whether a property is present and holds a string. -/
def isString : Option Json → Bool
  | some (.string _) => true
  | _ => false

/-- Whether a property is absent, or present and holding a string. -/
def isStringOrAbsent : Option Json → Bool
  | none => true
  | some (.string _) => true
  | _ => false

/-- A well-formed update record: an object whose `date`, `type`, `title`,
`description` and `link` are strings. -/
def wellFormed : Json → Bool
  | .object props =>
    isString (lookup props "date") && isString (lookup props "type") &&
    isString (lookup props "title") && isString (lookup props "description") &&
    isString (lookup props "link")
  | _ => false

/-- An update record with missing fields: an object in which each of `date`,
`type`, `title`, `description` and `link` is absent or a string. -/
def wellFormedOrMissing : Json → Bool
  | .object props =>
    isStringOrAbsent (lookup props "date") && isStringOrAbsent (lookup props "type") &&
    isStringOrAbsent (lookup props "title") && isStringOrAbsent (lookup props "description") &&
    isStringOrAbsent (lookup props "link")
  | _ => false

/-- Whether a property is absent, or present with a value whose string
conversion raises no error. -/
def convertsOrAbsent : Option Json → Bool
  | none => true
  | some v =>
    match v.toStr with
    | .ok _ => true
    | .error _ => false

/-- A record with missing fields whose present fields can be converted: an
object in which each of `date`, `type`, `title`, `description` and `link` is
absent or has a string conversion; or an array, which has none of the five. -/
def convertibleOrMissing : Json → Bool
  | .object props =>
    convertsOrAbsent (lookup props "date") && convertsOrAbsent (lookup props "type") &&
    convertsOrAbsent (lookup props "title") &&
    convertsOrAbsent (lookup props "description") &&
    convertsOrAbsent (lookup props "link")
  | .array _ => true
  | _ => false

/-- The record `record` renders to the element `node`: `createUpdateElement`
returns `node` for it, without raising an error. -/
abbrev RendersTo (record : Json) (node : Element) : Prop :=
  createUpdateElement (.json record) = .ok node

/-- The markup of an update, with the five texts in their places. -/
def updateMarkup (date type title description link : String) : String :=
  "\n        <div class=\"update-header\">\n            <span class=\"update-date\">" ++ date ++
  "</span>\n            <span class=\"update-type\">" ++ type ++
  "</span>\n        </div>\n        <h3 class=\"update-title\">" ++ title ++
  "</h3>\n        <p class=\"update-description\">" ++ description ++
  "</p>\n        <a href=\"" ++ link ++
  "\" class=\"update-link\">Learn more</a>\n    "

/-- The record of the scenario of the specification. -/
def scenarioRecord : Json :=
  .object [("date", .string "2024-01-01"), ("type", .string "release"),
    ("title", .string "v1.0"), ("description", .string "First release"),
    ("link", .string "https://example.com")]

/-- The response body of the scenario of the specification. -/
def scenarioBody : String :=
  "\x7b\"updates\":[\x7b\"date\":\"2024-01-01\",\"type\":\"release\",\"title\":\"v1.0\"," ++
  "\"description\":\"First release\",\"link\":\"https://example.com\"\x7d]\x7d"

/-- A JSON decoder restricted to the response bodies used in the examples of
this file; any other text is treated as a body that is not JSON. -/
def sampleParse (body : String) : Except JSError Json :=
  if body = scenarioBody then .ok (.object [("updates", .array [scenarioRecord])])
  else if body = "\x7b\x7d" then .ok (.object [])
  else if body = "\x7b\"updates\":[\x7b\"title\":\"v1.0\"\x7d]\x7d" then
    .ok (.object [("updates", .array [.object [("title", .string "v1.0")]])])
  else if body = "\x7b\"updates\":[\x7b\x7d,null]\x7d" then
    .ok (.object [("updates", .array [.object [], .null])])
  else .error .syntaxError

/-! ## Lemmas on the renderer -/

theorem evalTemplate_text (update : JSValue) (s t : String) (rest : List TemplatePart)
    (h : evalTemplate update rest = .ok t) :
    evalTemplate update (.text s :: rest) = .ok (s ++ t) := by
  simp only [evalTemplate, h]

theorem evalTemplate_subst (props : List (String × Json)) (k t : String) (x : Option String)
    (rest : List TemplatePart) (hk : lookup props k = x.map Json.string)
    (h : evalTemplate (.json (.object props)) rest = .ok t) :
    evalTemplate (.json (.object props)) (.subst k :: rest) = .ok (x.getD "undefined" ++ t) := by
  cases x <;> simp [evalTemplate, getProp, toStringJS, Json.toStr, hk, h]

theorem createUpdateElement_fields (props : List (String × Json))
    (date type title description link : Option String)
    (hdate : lookup props "date" = date.map Json.string)
    (htype : lookup props "type" = type.map Json.string)
    (htitle : lookup props "title" = title.map Json.string)
    (hdescription : lookup props "description" = description.map Json.string)
    (hlink : lookup props "link" = link.map Json.string) :
    createUpdateElement (.json (.object props)) =
      .ok { tagName := "div",
            className := "update-item " ++ type.getD "undefined",
            innerHTML := updateMarkup (date.getD "undefined") (type.getD "undefined")
              (title.getD "undefined") (description.getD "undefined")
              (link.getD "undefined") } := by
  have hnil : evalTemplate (.json (.object props)) [] = .ok "" := rfl
  have hcls := evalTemplate_text _ "update-item " _ _
    (evalTemplate_subst props "type" _ type _ htype hnil)
  have hhtml :=
    evalTemplate_text _
      "\n        <div class=\"update-header\">\n            <span class=\"update-date\">" _ _
    (evalTemplate_subst props "date" _ date _ hdate
    (evalTemplate_text _ "</span>\n            <span class=\"update-type\">" _ _
    (evalTemplate_subst props "type" _ type _ htype
    (evalTemplate_text _ "</span>\n        </div>\n        <h3 class=\"update-title\">" _ _
    (evalTemplate_subst props "title" _ title _ htitle
    (evalTemplate_text _ "</h3>\n        <p class=\"update-description\">" _ _
    (evalTemplate_subst props "description" _ description _ hdescription
    (evalTemplate_text _ "</p>\n        <a href=\"" _ _
    (evalTemplate_subst props "link" _ link _ hlink
    (evalTemplate_text _ "\" class=\"update-link\">Learn more</a>\n    " _ _ hnil))))))))))
  simp only [createUpdateElement, classNameTemplate, innerHTMLTemplate, hcls, hhtml,
    updateMarkup, String.append_assoc, String.append_empty]

theorem isString_eq_true (x : Option Json) (h : isString x = true) :
    ∃ s : String, x = Option.map Json.string (some s) := by
  match x, h with
  | some (.string s), _ => exact ⟨s, rfl⟩

theorem isStringOrAbsent_eq_true (x : Option Json) (h : isStringOrAbsent x = true) :
    ∃ s : Option String, x = Option.map Json.string s := by
  match x, h with
  | none, _ => exact ⟨none, rfl⟩
  | some (.string s), _ => exact ⟨some s, rfl⟩

theorem wellFormedOrMissing_renders (record : Json) (h : wellFormedOrMissing record = true) :
    ∃ node, RendersTo record node := by
  cases record with
  | object props =>
    simp only [wellFormedOrMissing, Bool.and_eq_true] at h
    obtain ⟨⟨⟨⟨h1, h2⟩, h3⟩, h4⟩, h5⟩ := h
    obtain ⟨date, hdate⟩ := isStringOrAbsent_eq_true _ h1
    obtain ⟨type, htype⟩ := isStringOrAbsent_eq_true _ h2
    obtain ⟨title, htitle⟩ := isStringOrAbsent_eq_true _ h3
    obtain ⟨description, hdescription⟩ := isStringOrAbsent_eq_true _ h4
    obtain ⟨link, hlink⟩ := isStringOrAbsent_eq_true _ h5
    exact ⟨_, createUpdateElement_fields props date type title description link
      hdate htype htitle hdescription hlink⟩
  | null => simp [wellFormedOrMissing] at h
  | bool b => simp [wellFormedOrMissing] at h
  | number t => simp [wellFormedOrMissing] at h
  | string s => simp [wellFormedOrMissing] at h
  | array items => simp [wellFormedOrMissing] at h

theorem isStringOrAbsent_of_isString (x : Option Json) (h : isString x = true) :
    isStringOrAbsent x = true := by
  match x, h with
  | some (.string s), _ => rfl

theorem wellFormedOrMissing_of_wellFormed (record : Json) (h : wellFormed record = true) :
    wellFormedOrMissing record = true := by
  cases record with
  | object props =>
    simp only [wellFormed, Bool.and_eq_true] at h
    obtain ⟨⟨⟨⟨h1, h2⟩, h3⟩, h4⟩, h5⟩ := h
    simp only [wellFormedOrMissing, Bool.and_eq_true]
    exact ⟨⟨⟨⟨isStringOrAbsent_of_isString _ h1, isStringOrAbsent_of_isString _ h2⟩,
      isStringOrAbsent_of_isString _ h3⟩, isStringOrAbsent_of_isString _ h4⟩,
      isStringOrAbsent_of_isString _ h5⟩
  | null => simp [wellFormed] at h
  | bool b => simp [wellFormed] at h
  | number t => simp [wellFormed] at h
  | string s => simp [wellFormed] at h
  | array items => simp [wellFormed] at h

theorem evalTemplate_text_eq (update : JSValue) (s : String) (rest : List TemplatePart) :
    evalTemplate update (.text s :: rest) =
      match evalTemplate update rest with
      | .error e => .error e
      | .ok t => .ok (s ++ t) := by
  simp only [evalTemplate]

theorem evalTemplate_subst_eq (update : JSValue) (k : String) (p : TemplatePart)
    (rest : List TemplatePart) :
    evalTemplate update (.subst k :: p :: rest) =
      match evalTemplate update [.subst k] with
      | .error e => .error e
      | .ok a =>
        match evalTemplate update (p :: rest) with
        | .error e => .error e
        | .ok t => .ok (a ++ t) := by
  rw [evalTemplate, evalTemplate.eq_3 update k []]
  cases getProp update k with
  | error e => rfl
  | ok v =>
    dsimp only
    cases toStringJS v with
    | error e => rfl
    | ok a => simp [evalTemplate]

theorem createUpdateElement_eq (update : JSValue) :
    createUpdateElement update =
      match evalTemplate update [.subst "type"] with
      | .error e => .error e
      | .ok type =>
        match evalTemplate update [.subst "date"] with
        | .error e => .error e
        | .ok date =>
          match evalTemplate update [.subst "title"] with
          | .error e => .error e
          | .ok title =>
            match evalTemplate update [.subst "description"] with
            | .error e => .error e
            | .ok description =>
              match evalTemplate update [.subst "link"] with
              | .error e => .error e
              | .ok link =>
                .ok { tagName := "div", className := "update-item " ++ type,
                      innerHTML := updateMarkup date type title description link } := by
  simp only [createUpdateElement, classNameTemplate, innerHTMLTemplate, evalTemplate_text_eq,
    evalTemplate_subst_eq]
  cases evalTemplate update [.subst "type"] with
  | error e => rfl
  | ok type =>
    cases evalTemplate update [.subst "date"] with
    | error e => rfl
    | ok date =>
      cases evalTemplate update [.subst "title"] with
      | error e => rfl
      | ok title =>
        cases evalTemplate update [.subst "description"] with
        | error e => rfl
        | ok description =>
          cases evalTemplate update [.subst "link"] with
          | error e => rfl
          | ok link =>
            simp only [evalTemplate, updateMarkup, String.append_assoc, String.append_empty]

theorem createUpdateElement_texts (update : JSValue)
    (date type title description link : String)
    (hdate : evalTemplate update [.subst "date"] = .ok date)
    (htype : evalTemplate update [.subst "type"] = .ok type)
    (htitle : evalTemplate update [.subst "title"] = .ok title)
    (hdescription : evalTemplate update [.subst "description"] = .ok description)
    (hlink : evalTemplate update [.subst "link"] = .ok link) :
    createUpdateElement update =
      .ok { tagName := "div", className := "update-item " ++ type,
            innerHTML := updateMarkup date type title description link } := by
  rw [createUpdateElement_eq]
  simp only [hdate, htype, htitle, hdescription, hlink]

theorem createUpdateElement_ok (update : JSValue) (node : Element)
    (h : createUpdateElement update = .ok node) :
    ∃ date type title description link : String,
      evalTemplate update [.subst "date"] = .ok date ∧
      evalTemplate update [.subst "type"] = .ok type ∧
      evalTemplate update [.subst "title"] = .ok title ∧
      evalTemplate update [.subst "description"] = .ok description ∧
      evalTemplate update [.subst "link"] = .ok link ∧
      node = { tagName := "div", className := "update-item " ++ type,
               innerHTML := updateMarkup date type title description link } := by
  rw [createUpdateElement_eq] at h
  cases htype : evalTemplate update [.subst "type"] with
  | error e => simp [htype] at h
  | ok type =>
    cases hdate : evalTemplate update [.subst "date"] with
    | error e => simp [htype, hdate] at h
    | ok date =>
      cases htitle : evalTemplate update [.subst "title"] with
      | error e => simp [htype, hdate, htitle] at h
      | ok title =>
        cases hdescription : evalTemplate update [.subst "description"] with
        | error e => simp [htype, hdate, htitle, hdescription] at h
        | ok description =>
          cases hlink : evalTemplate update [.subst "link"] with
          | error e => simp [htype, hdate, htitle, hdescription, hlink] at h
          | ok link =>
            simp only [htype, hdate, htitle, hdescription, hlink, Except.ok.injEq] at h
            exact ⟨date, type, title, description, link, rfl, rfl, rfl, rfl, rfl, h.symm⟩

theorem evalTemplate_subst_string (props : List (String × Json)) (k s : String)
    (hk : lookup props k = some (.string s)) :
    evalTemplate (.json (.object props)) [.subst k] = .ok s := by
  simp [evalTemplate, getProp, toStringJS, Json.toStr, hk]

theorem evalTemplate_subst_absent (props : List (String × Json)) (k : String)
    (hk : lookup props k = none) :
    evalTemplate (.json (.object props)) [.subst k] = .ok "undefined" := by
  simp [evalTemplate, getProp, toStringJS, hk]

theorem evalTemplate_subst_array (items : List Json) (k : String) (hk : k ≠ "forEach") :
    evalTemplate (.json (.array items)) [.subst k] = .ok "undefined" := by
  simp [evalTemplate, getProp, toStringJS, hk]

theorem convertsOrAbsent_eq_true (props : List (String × Json)) (k : String)
    (h : convertsOrAbsent (lookup props k) = true) :
    ∃ t, evalTemplate (.json (.object props)) [.subst k] = .ok t := by
  cases hk : lookup props k with
  | none => exact ⟨"undefined", evalTemplate_subst_absent props k hk⟩
  | some v =>
    cases hv : v.toStr with
    | error e => simp [convertsOrAbsent, hk, hv] at h
    | ok t => exact ⟨t, by simp [evalTemplate, getProp, toStringJS, hk, hv]⟩

theorem convertibleOrMissing_renders (record : Json)
    (h : convertibleOrMissing record = true) : ∃ node, RendersTo record node := by
  cases record with
  | object props =>
    simp only [convertibleOrMissing, Bool.and_eq_true] at h
    obtain ⟨⟨⟨⟨h1, h2⟩, h3⟩, h4⟩, h5⟩ := h
    obtain ⟨date, hdate⟩ := convertsOrAbsent_eq_true _ _ h1
    obtain ⟨type, htype⟩ := convertsOrAbsent_eq_true _ _ h2
    obtain ⟨title, htitle⟩ := convertsOrAbsent_eq_true _ _ h3
    obtain ⟨description, hdescription⟩ := convertsOrAbsent_eq_true _ _ h4
    obtain ⟨link, hlink⟩ := convertsOrAbsent_eq_true _ _ h5
    exact ⟨_, createUpdateElement_texts _ date type title description link
      hdate htype htitle hdescription hlink⟩
  | array items =>
    exact ⟨_, createUpdateElement_texts _ _ _ _ _ _
      (evalTemplate_subst_array items "date" (by decide))
      (evalTemplate_subst_array items "type" (by decide))
      (evalTemplate_subst_array items "title" (by decide))
      (evalTemplate_subst_array items "description" (by decide))
      (evalTemplate_subst_array items "link" (by decide))⟩
  | null => simp [convertibleOrMissing] at h
  | bool b => simp [convertibleOrMissing] at h
  | number t => simp [convertibleOrMissing] at h
  | string s => simp [convertibleOrMissing] at h

theorem all_render (records : List Json)
    (h : ∀ r ∈ records, ∃ node, RendersTo r node) :
    ∃ nodes, List.Forall₂ RendersTo records nodes := by
  induction records with
  | nil => exact ⟨[], List.Forall₂.nil⟩
  | cons r rest ih =>
    obtain ⟨node, hnode⟩ := h r (List.mem_cons_self _ _)
    obtain ⟨nodes, hnodes⟩ := ih (fun x hx => h x (List.mem_cons_of_mem _ hx))
    exact ⟨node :: nodes, List.Forall₂.cons hnode hnodes⟩

/-! ## Lemmas on the handler -/

theorem forEach_rendered (records : List Json) (nodes : List Element)
    (h : List.Forall₂ RendersTo records nodes) (children : List Child)
    (console : List (String × JSError)) :
    forEach records ⟨some children, console⟩ =
      (⟨some (children ++ nodes.map Child.element), console⟩, .ok ()) := by
  induction h generalizing children with
  | nil => simp [forEach]
  | cons hr _ ih =>
    simp only [RendersTo] at hr
    simp [forEach, renderUpdate, hr, ih]

theorem forEach_raised (good : List Json) (nodes : List Element)
    (h : List.Forall₂ RendersTo good nodes) (bad : Json) (rest : List Json) (e : JSError)
    (hbad : createUpdateElement (.json bad) = .error e) (children : List Child)
    (console : List (String × JSError)) :
    forEach (good ++ bad :: rest) ⟨some children, console⟩ =
      (⟨some (children ++ nodes.map Child.element), console⟩, .error e) := by
  induction h generalizing children with
  | nil => simp [forEach, renderUpdate, hbad]
  | cons hr _ ih =>
    simp only [RendersTo] at hr
    simp [forEach, renderUpdate, hr, ih]

theorem forEach_settled (records : List Json) (children : List Child)
    (console : List (String × JSError)) :
    ∃ nodes, (forEach records ⟨some children, console⟩).1 =
        ⟨some (children ++ nodes.map Child.element), console⟩ ∧
      ((forEach records ⟨some children, console⟩).2 = .ok () →
        List.Forall₂ RendersTo records nodes) := by
  induction records generalizing children with
  | nil => exact ⟨[], by simp [forEach], fun _ => List.Forall₂.nil⟩
  | cons r rest ih =>
    cases hr : createUpdateElement (.json r) with
    | error e => exact ⟨[], by simp [forEach, renderUpdate, hr], by simp [forEach, renderUpdate, hr]⟩
    | ok node =>
      obtain ⟨nodes, h1, h2⟩ := ih (children ++ [Child.element node])
      refine ⟨node :: nodes, ?_, ?_⟩
      · simp [forEach, renderUpdate, hr, h1]
      · intro h
        refine List.Forall₂.cons hr (h2 ?_)
        simpa [forEach, renderUpdate, hr] using h

theorem renderUpdates_array (props : List (String × Json)) (records : List Json)
    (hupdates : lookup props "updates" = some (.array records)) (page : Page) :
    renderUpdates (.object props) page = forEach records page := by
  simp [renderUpdates, getProp, hupdates]

theorem renderUpdates_settled (data : Json) (children : List Child)
    (console : List (String × JSError)) :
    ∃ nodes, (renderUpdates data ⟨some children, console⟩).1 =
        ⟨some (children ++ nodes.map Child.element), console⟩ ∧
      ((renderUpdates data ⟨some children, console⟩).2 = .ok () →
        ∃ props records, data = .object props ∧
          lookup props "updates" = some (.array records) ∧
          List.Forall₂ RendersTo records nodes) := by
  cases data with
  | null => exact ⟨[], by simp [renderUpdates, getProp], by simp [renderUpdates, getProp]⟩
  | bool b => exact ⟨[], by simp [renderUpdates, getProp], by simp [renderUpdates, getProp]⟩
  | number t => exact ⟨[], by simp [renderUpdates, getProp], by simp [renderUpdates, getProp]⟩
  | string t => exact ⟨[], by simp [renderUpdates, getProp], by simp [renderUpdates, getProp]⟩
  | array items => exact ⟨[], by simp [renderUpdates, getProp], by simp [renderUpdates, getProp]⟩
  | object props =>
    cases hupdates : lookup props "updates" with
    | none =>
      exact ⟨[], by simp [renderUpdates, getProp, hupdates],
        by simp [renderUpdates, getProp, hupdates]⟩
    | some updates =>
      cases updates with
      | array records =>
        obtain ⟨nodes, h1, h2⟩ := forEach_settled records children console
        refine ⟨nodes, ?_, ?_⟩
        · rw [renderUpdates_array props records hupdates]
          exact h1
        · intro h
          rw [renderUpdates_array props records hupdates] at h
          exact ⟨props, records, rfl, hupdates, h2 h⟩
      | null =>
        exact ⟨[], by simp [renderUpdates, getProp, hupdates],
          by simp [renderUpdates, getProp, hupdates]⟩
      | bool b =>
        exact ⟨[], by simp [renderUpdates, getProp, hupdates],
          by simp [renderUpdates, getProp, hupdates]⟩
      | number t =>
        exact ⟨[], by simp [renderUpdates, getProp, hupdates],
          by simp [renderUpdates, getProp, hupdates]⟩
      | string t =>
        exact ⟨[], by simp [renderUpdates, getProp, hupdates],
          by simp [renderUpdates, getProp, hupdates]⟩
      | object inner =>
        cases hinner : lookup inner "forEach" with
        | none =>
          exact ⟨[], by simp [renderUpdates, getProp, hupdates, hinner],
            by simp [renderUpdates, getProp, hupdates, hinner]⟩
        | some f =>
          exact ⟨[], by simp [renderUpdates, getProp, hupdates, hinner],
            by simp [renderUpdates, getProp, hupdates, hinner]⟩

theorem handler_rendered (jsonParse : String → Except JSError Json) (response : Response)
    (props : List (String × Json)) (records : List Json) (nodes : List Element)
    (hdecode : jsonParse response.body = .ok (.object props))
    (hupdates : lookup props "updates" = some (.array records))
    (hnodes : List.Forall₂ RendersTo records nodes) (children : List Child)
    (console : List (String × JSError)) :
    handler jsonParse (.ok response) ⟨some children, console⟩ =
      (⟨some (children ++ nodes.map Child.element), console⟩, .ok ()) := by
  simp [handler, hdecode, renderUpdates_array props records hupdates,
    forEach_rendered records nodes hnodes]

theorem handler_settled (jsonParse : String → Except JSError Json)
    (fetched : Except JSError Response) (children : List Child)
    (console : List (String × JSError)) :
    (∃ response props records nodes, fetched = .ok response ∧
        jsonParse response.body = .ok (.object props) ∧
        lookup props "updates" = some (.array records) ∧
        List.Forall₂ RendersTo records nodes ∧
        handler jsonParse fetched ⟨some children, console⟩ =
          (⟨some (children ++ nodes.map Child.element), console⟩, .ok ())) ∨
    (∃ e, handler jsonParse fetched ⟨some children, console⟩ =
        (⟨some [Child.markup errorMarkup], console ++ [(errorLabel, e)]⟩, .ok ())) := by
  cases fetched with
  | error e => exact Or.inr ⟨e, by simp [handler, showError]⟩
  | ok response =>
    cases hdecode : jsonParse response.body with
    | error e => exact Or.inr ⟨e, by simp [handler, showError, hdecode]⟩
    | ok data =>
      obtain ⟨nodes, h1, h2⟩ := renderUpdates_settled data children console
      cases hres : (renderUpdates data ⟨some children, console⟩).2 with
      | error e =>
        refine Or.inr ⟨e, ?_⟩
        have hpair : renderUpdates data ⟨some children, console⟩ =
            (⟨some (children ++ nodes.map Child.element), console⟩, .error e) :=
          Prod.ext h1 hres
        simp [handler, showError, hdecode, hpair]
      | ok u =>
        obtain ⟨props, records, hdata, hupdates, hnodes⟩ := h2 hres
        subst hdata
        exact Or.inl ⟨response, props, records, nodes, rfl, hdecode, hupdates, hnodes,
          handler_rendered jsonParse response props records nodes hdecode hupdates hnodes
            children console⟩

theorem handler_records (jsonParse : String → Except JSError Json) (response : Response)
    (props : List (String × Json)) (records : List Json)
    (hdecode : jsonParse response.body = .ok (.object props))
    (hupdates : lookup props "updates" = some (.array records))
    (hrecords : ∀ r ∈ records, ∃ node, RendersTo r node) (children : List Child)
    (console : List (String × JSError)) :
    ∃ nodes : List Element,
      List.Forall₂ RendersTo records nodes ∧ nodes.length = records.length ∧
      handler jsonParse (.ok response) ⟨some children, console⟩ =
        (⟨some (children ++ nodes.map Child.element), console⟩, .ok ()) := by
  obtain ⟨nodes, hnodes⟩ := all_render records hrecords
  exact ⟨nodes, hnodes, hnodes.length_eq.symm,
    handler_rendered jsonParse response props records nodes hdecode hupdates hnodes
      children console⟩

theorem console_ne_append (console : List (String × JSError)) (entry : String × JSError) :
    console ≠ console ++ [entry] := by
  intro h
  have := congrArg List.length h
  simp at this

/-! ## The claims -/

/-- C1: success path. When the body decodes to an object whose `updates` is a
list of well-formed records, the handler leaves the container with its previous
children followed by one new node per record, the i-th node being what
`createUpdateElement` returns for the i-th record, in the order of the list; the
console is unchanged and no error markup is installed. -/
theorem success_path_appends_in_order (jsonParse : String → Except JSError Json)
    (response : Response) (children : List Child) (console : List (String × JSError))
    (props : List (String × Json)) (records : List Json)
    (hdecode : jsonParse response.body = .ok (.object props))
    (hupdates : lookup props "updates" = some (.array records))
    (hwf : ∀ r ∈ records, wellFormed r = true) :
    ∃ nodes : List Element,
      List.Forall₂ (fun record node => createUpdateElement (.json record) = .ok node)
        records nodes ∧
      nodes.length = records.length ∧
      handler jsonParse (.ok response) ⟨some children, console⟩ =
        (⟨some (children ++ nodes.map Child.element), console⟩, .ok ()) := by
  exact handler_records jsonParse response props records hdecode hupdates
    (fun r hr => wellFormedOrMissing_renders r (wellFormedOrMissing_of_wellFormed r (hwf r hr))) children console

/-- Witness of C1: the scenario of the specification, on a container that
already holds one child. -/
theorem success_path_appends_in_order_witness :
    ∃ nodes : List Element,
      List.Forall₂ (fun record node => createUpdateElement (.json record) = .ok node)
        [scenarioRecord] nodes ∧
      nodes.length = [scenarioRecord].length ∧
      handler sampleParse (.ok ⟨200, scenarioBody⟩) ⟨some [Child.markup "<h2>News</h2>"], []⟩ =
        (⟨some ([Child.markup "<h2>News</h2>"] ++ nodes.map Child.element), []⟩, .ok ()) :=
  success_path_appends_in_order sampleParse ⟨200, scenarioBody⟩ [Child.markup "<h2>News</h2>"] []
    [("updates", .array [scenarioRecord])] [scenarioRecord] (by rfl) (by rfl)
    (by intro r hr; rw [List.mem_singleton] at hr; subst hr; rfl)

/-- C2: failure path. When the request is rejected, or the body of the response
fails to decode as JSON, the handler logs the error and leaves the container
with the error markup as its only content, whatever it held before: no update
node, none of the previous children. -/
theorem failure_path_shows_error_paragraph (jsonParse : String → Except JSError Json)
    (children : List Child) (console : List (String × JSError)) :
    (∀ e : JSError,
      handler jsonParse (.error e) ⟨some children, console⟩ =
        (⟨some [Child.markup
            "<p class=\"error\">Unable to load updates. Please try again later.</p>"],
          console ++ [("Error loading updates:", e)]⟩, .ok ())) ∧
    (∀ (response : Response) (e : JSError), jsonParse response.body = .error e →
      handler jsonParse (.ok response) ⟨some children, console⟩ =
        (⟨some [Child.markup
            "<p class=\"error\">Unable to load updates. Please try again later.</p>"],
          console ++ [("Error loading updates:", e)]⟩, .ok ())) := by
  refine ⟨fun e => ?_, fun response e hdecode => ?_⟩
  · simp [handler, showError, errorMarkup, errorLabel]
  · simp [handler, showError, errorMarkup, errorLabel, hdecode]

/-- Witness of C2: a body that is an HTML page, on a container that already
holds a rendered update. -/
theorem failure_path_shows_error_paragraph_witness :
    handler sampleParse (.ok ⟨404, "<html>Not Found</html>"⟩)
        ⟨some [Child.element ⟨"div", "update-item release", "old"⟩], []⟩ =
      (⟨some [Child.markup
          "<p class=\"error\">Unable to load updates. Please try again later.</p>"],
        [] ++ [("Error loading updates:", JSError.syntaxError)]⟩, .ok ()) :=
  (failure_path_shows_error_paragraph sampleParse
    [Child.element ⟨"div", "update-item release", "old"⟩] []).2
    ⟨404, "<html>Not Found</html>"⟩ JSError.syntaxError (by rfl)

/-- C3: all-or-nothing rendering. When the records before the k-th render and
the k-th raises an error, the loop stops with the first k-1 nodes appended, and
the handler then leaves the container with the error markup as its only
content: none of those nodes remains. For every outcome of the fetch, the final
container is either the previous children followed by the nodes of all records,
with nothing logged, or the error markup alone. -/
theorem render_error_discards_appended_nodes (jsonParse : String → Except JSError Json)
    (response : Response) (children : List Child) (console : List (String × JSError))
    (props : List (String × Json)) (good : List Json) (bad : Json) (rest : List Json)
    (nodes : List Element) (e : JSError)
    (hdecode : jsonParse response.body = .ok (.object props))
    (hupdates : lookup props "updates" = some (.array (good ++ bad :: rest)))
    (hgood : List.Forall₂ (fun record node => createUpdateElement (.json record) = .ok node)
      good nodes)
    (hbad : createUpdateElement (.json bad) = .error e) :
    renderUpdates (.object props) ⟨some children, console⟩ =
        (⟨some (children ++ nodes.map Child.element), console⟩, .error e) ∧
    handler jsonParse (.ok response) ⟨some children, console⟩ =
        (⟨some [Child.markup errorMarkup], console ++ [(errorLabel, e)]⟩, .ok ()) ∧
    ∀ fetched : Except JSError Response,
      (∃ appended : List Element,
        handler jsonParse fetched ⟨some children, console⟩ =
          (⟨some (children ++ appended.map Child.element), console⟩, .ok ())) ∨
      (∃ e', handler jsonParse fetched ⟨some children, console⟩ =
          (⟨some [Child.markup errorMarkup], console ++ [(errorLabel, e')]⟩, .ok ())) := by
  have hloop : renderUpdates (.object props) ⟨some children, console⟩ =
      (⟨some (children ++ nodes.map Child.element), console⟩, .error e) := by
    rw [renderUpdates_array props _ hupdates]
    exact forEach_raised good nodes hgood bad rest e hbad children console
  refine ⟨hloop, ?_, fun fetched => ?_⟩
  · simp [handler, showError, hdecode, hloop]
  · rcases handler_settled jsonParse fetched children console with
      ⟨_, _, _, appended, _, _, _, _, h⟩ | ⟨e', h⟩
    · exact Or.inl ⟨appended, h⟩
    · exact Or.inr ⟨e', h⟩

/-- Witness of C3: the body `{"updates":[{},null]}`. The first record renders
(with every field `undefined`) and is appended; the second is `null`, reading
its `type` raises a `TypeError`; the container ends with the error markup alone. -/
theorem render_error_discards_appended_nodes_witness :
    renderUpdates (.object [("updates", .array [.object [], .null])]) ⟨some [], []⟩ =
        (⟨some ([] ++ [(⟨"div", "update-item undefined",
            updateMarkup "undefined" "undefined" "undefined" "undefined" "undefined"⟩ :
              Element)].map Child.element), []⟩,
          .error JSError.typeError) ∧
    handler sampleParse (.ok ⟨200, "\x7b\"updates\":[\x7b\x7d,null]\x7d"⟩) ⟨some [], []⟩ =
        (⟨some [Child.markup errorMarkup], [] ++ [(errorLabel, JSError.typeError)]⟩, .ok ()) :=
  have h := render_error_discards_appended_nodes sampleParse
    ⟨200, "\x7b\"updates\":[\x7b\x7d,null]\x7d"⟩ [] []
    [("updates", .array [.object [], .null])] [.object []] .null []
    [⟨"div", "update-item undefined",
      updateMarkup "undefined" "undefined" "undefined" "undefined" "undefined"⟩]
    JSError.typeError (by rfl) (by rfl)
    (List.Forall₂.cons
      (createUpdateElement_fields [] none none none none none rfl rfl rfl rfl rfl)
      List.Forall₂.nil)
    (by rfl)
  ⟨h.1, h.2.1⟩

/-- C4: fixed inner structure. For a record whose five fields are strings,
`createUpdateElement` returns a `div` whose markup is the fixed template with
the values in their places: the header `div` holding the date `span` then the
type `span`, then the title `h3`, then the description `p`, then the `a` whose
`href` is the link and whose text is "Learn more". For the record of the
scenario the node is the `div` of class `update-item release` with those five
values. -/
theorem createUpdateElement_fixed_structure :
    (∀ (props : List (String × Json)) (date type title description link : String),
      lookup props "date" = some (.string date) →
      lookup props "type" = some (.string type) →
      lookup props "title" = some (.string title) →
      lookup props "description" = some (.string description) →
      lookup props "link" = some (.string link) →
      createUpdateElement (.json (.object props)) =
        .ok { tagName := "div",
              className := "update-item " ++ type,
              innerHTML :=
                "\n        <div class=\"update-header\">" ++
                "\n            <span class=\"update-date\">" ++ date ++ "</span>" ++
                "\n            <span class=\"update-type\">" ++ type ++ "</span>" ++
                "\n        </div>" ++
                "\n        <h3 class=\"update-title\">" ++ title ++ "</h3>" ++
                "\n        <p class=\"update-description\">" ++ description ++ "</p>" ++
                "\n        <a href=\"" ++ link ++ "\" class=\"update-link\">Learn more</a>" ++
                "\n    " }) ∧
    createUpdateElement (.json (.object
        [("date", .string "2024-01-01"), ("type", .string "release"),
         ("title", .string "v1.0"), ("description", .string "First release"),
         ("link", .string "https://example.com")])) =
      .ok { tagName := "div",
            className := "update-item release",
            innerHTML :=
              "\n        <div class=\"update-header\">" ++
              "\n            <span class=\"update-date\">2024-01-01</span>" ++
              "\n            <span class=\"update-type\">release</span>" ++
              "\n        </div>" ++
              "\n        <h3 class=\"update-title\">v1.0</h3>" ++
              "\n        <p class=\"update-description\">First release</p>" ++
              "\n        <a href=\"https://example.com\" class=\"update-link\">Learn more</a>" ++
              "\n    " } := by
  constructor
  · intro props date type title description link hdate htype htitle hdescription hlink
    rw [createUpdateElement_fields props (some date) (some type) (some title)
      (some description) (some link) hdate htype htitle hdescription hlink]
    simp [updateMarkup, String.append_assoc]
  · simp [createUpdateElement, evalTemplate, classNameTemplate, innerHTMLTemplate, getProp,
      lookup, toStringJS, Json.toStr]

/-- Witness of C4: a record with its fields in another order and one more field. -/
theorem createUpdateElement_fixed_structure_witness :
    createUpdateElement (.json (.object
        [("link", .string "https://example.org/a"), ("id", .number "7"),
         ("date", .string "2025-02-03"), ("type", .string "news"),
         ("title", .string "Hello"), ("description", .string "World")])) =
      .ok { tagName := "div",
            className := "update-item " ++ "news",
            innerHTML :=
              "\n        <div class=\"update-header\">" ++
              "\n            <span class=\"update-date\">" ++ "2025-02-03" ++ "</span>" ++
              "\n            <span class=\"update-type\">" ++ "news" ++ "</span>" ++
              "\n        </div>" ++
              "\n        <h3 class=\"update-title\">" ++ "Hello" ++ "</h3>" ++
              "\n        <p class=\"update-description\">" ++ "World" ++ "</p>" ++
              "\n        <a href=\"" ++ "https://example.org/a" ++
                "\" class=\"update-link\">Learn more</a>" ++
              "\n    " } :=
  createUpdateElement_fixed_structure.1
    [("link", .string "https://example.org/a"), ("id", .number "7"),
     ("date", .string "2025-02-03"), ("type", .string "news"),
     ("title", .string "Hello"), ("description", .string "World")]
    "2025-02-03" "news" "Hello" "World" "https://example.org/a" rfl rfl rfl rfl rfl

/-- C5: class of the rendered node. For a record whose `type` is the string t,
the text assigned to `className` is `update-item`, one space, then t as it is;
every node returned for such a record has that class, and a node is returned
when the record is well-formed. For the type `release` the class is
`update-item release`. -/
theorem className_is_update_item_then_type :
    (∀ (props : List (String × Json)) (t : String),
      lookup props "type" = some (.string t) →
      evalTemplate (.json (.object props)) classNameTemplate = .ok ("update-item " ++ t) ∧
      (∀ node, createUpdateElement (.json (.object props)) = .ok node →
        node.className = "update-item " ++ t) ∧
      (wellFormed (.object props) = true →
        ∃ node, createUpdateElement (.json (.object props)) = .ok node ∧
          node.className = "update-item " ++ t)) ∧
    (createUpdateElement (.json scenarioRecord)).map Element.className =
      .ok "update-item release" := by
  constructor
  · intro props t htype
    have hcls : evalTemplate (.json (.object props)) classNameTemplate =
        .ok ("update-item " ++ t) := by
      have h := evalTemplate_text (.json (.object props)) "update-item " _ _
        (evalTemplate_subst props "type" "" (some t) [] htype rfl)
      simpa [classNameTemplate] using h
    have hany : ∀ node, createUpdateElement (.json (.object props)) = .ok node →
        node.className = "update-item " ++ t := by
      intro node hnode
      simp only [createUpdateElement, hcls] at hnode
      cases hhtml : evalTemplate (.json (.object props)) innerHTMLTemplate with
      | error e => simp [hhtml] at hnode
      | ok html =>
        simp only [hhtml, Except.ok.injEq] at hnode
        rw [← hnode]
    refine ⟨hcls, hany, fun hwf => ?_⟩
    obtain ⟨node, hnode⟩ :=
      wellFormedOrMissing_renders _ (wellFormedOrMissing_of_wellFormed _ hwf)
    exact ⟨node, hnode, hany node hnode⟩
  · rfl

/-- Witness of C5: a type with spaces, capitals and markup characters is taken
as it is. -/
theorem className_is_update_item_then_type_witness :
    evalTemplate (.json (.object [("type", .string " Big <News> ")])) classNameTemplate =
      .ok ("update-item " ++ " Big <News> ") :=
  (className_is_update_item_then_type.1 [("type", .string " Big <News> ")] " Big <News> "
    rfl).1

/-- C6: no escaping of title and description. For every object record whose
title and description are strings, whatever its other fields, every node that
`createUpdateElement` returns has the template as its markup, with the title as
it is between the opening and the closing tag of the title `h3` and the
description as it is between the tags of the description `p`; and a node is
returned whenever the substitutions of date, type and link evaluate. For the
title `<b>x</b>` the title area is the `h3` holding `<b>x</b>`. -/
theorem title_and_description_inserted_raw :
    (∀ (props : List (String × Json)) (title description : String),
      lookup props "title" = some (.string title) →
      lookup props "description" = some (.string description) →
      (∀ node, createUpdateElement (.json (.object props)) = .ok node →
        ∃ date type link : String,
          node.innerHTML =
            "\n        <div class=\"update-header\">" ++
            "\n            <span class=\"update-date\">" ++ date ++ "</span>" ++
            "\n            <span class=\"update-type\">" ++ type ++ "</span>" ++
            "\n        </div>" ++
            "\n        " ++ "<h3 class=\"update-title\">" ++ title ++ "</h3>" ++
            "\n        " ++ "<p class=\"update-description\">" ++ description ++ "</p>" ++
            "\n        <a href=\"" ++ link ++ "\" class=\"update-link\">Learn more</a>" ++
            "\n    ") ∧
      (∀ date type link : String,
        evalTemplate (.json (.object props)) [.subst "date"] = .ok date →
        evalTemplate (.json (.object props)) [.subst "type"] = .ok type →
        evalTemplate (.json (.object props)) [.subst "link"] = .ok link →
        ∃ node, createUpdateElement (.json (.object props)) = .ok node ∧
          node.innerHTML =
            "\n        <div class=\"update-header\">" ++
            "\n            <span class=\"update-date\">" ++ date ++ "</span>" ++
            "\n            <span class=\"update-type\">" ++ type ++ "</span>" ++
            "\n        </div>" ++
            "\n        " ++ "<h3 class=\"update-title\">" ++ title ++ "</h3>" ++
            "\n        " ++ "<p class=\"update-description\">" ++ description ++ "</p>" ++
            "\n        <a href=\"" ++ link ++ "\" class=\"update-link\">Learn more</a>" ++
            "\n    ")) ∧
    (createUpdateElement (.json (.object
        [("date", .string "2024-01-01"), ("type", .string "release"),
         ("title", .string "<b>x</b>"), ("description", .string "First release"),
         ("link", .string "https://example.com")]))).map Element.innerHTML =
      .ok ("\n        <div class=\"update-header\">" ++
        "\n            <span class=\"update-date\">2024-01-01</span>" ++
        "\n            <span class=\"update-type\">release</span>" ++
        "\n        </div>" ++
        "\n        " ++ "<h3 class=\"update-title\"><b>x</b></h3>" ++
        "\n        <p class=\"update-description\">First release</p>" ++
        "\n        <a href=\"https://example.com\" class=\"update-link\">Learn more</a>" ++
        "\n    ") := by
  have hshape : ∀ date type title description link : String,
      updateMarkup date type title description link =
        "\n        <div class=\"update-header\">" ++
        "\n            <span class=\"update-date\">" ++ date ++ "</span>" ++
        "\n            <span class=\"update-type\">" ++ type ++ "</span>" ++
        "\n        </div>" ++
        "\n        " ++ "<h3 class=\"update-title\">" ++ title ++ "</h3>" ++
        "\n        " ++ "<p class=\"update-description\">" ++ description ++ "</p>" ++
        "\n        <a href=\"" ++ link ++ "\" class=\"update-link\">Learn more</a>" ++
        "\n    " := by
    intro date type title description link
    simp [updateMarkup, String.append_assoc]
  constructor
  · intro props title description htitle hdescription
    have htitle' := evalTemplate_subst_string props "title" title htitle
    have hdescription' := evalTemplate_subst_string props "description" description hdescription
    constructor
    · intro node hnode
      obtain ⟨date, type, title', description', link, _, _, ht, hd, _, hnode'⟩ :=
        createUpdateElement_ok _ node hnode
      rw [htitle'] at ht
      rw [hdescription'] at hd
      cases ht
      cases hd
      exact ⟨date, type, link, by rw [hnode']; exact hshape date type title description link⟩
    · intro date type link hdate htype hlink
      exact ⟨_, createUpdateElement_texts _ date type title description link
        hdate htype htitle' hdescription' hlink, hshape date type title description link⟩
  · simp [createUpdateElement, evalTemplate, classNameTemplate, innerHTMLTemplate, getProp,
      lookup, toStringJS, Json.toStr, Except.map]

/-- Witness of C6: a record with no date, a number as its type and `null` as its
link, whose title closes the `h3` and opens a `script`, and whose description
has an ampersand and quotes. -/
theorem title_and_description_inserted_raw_witness :
    ∃ node, createUpdateElement (.json (.object
        [("type", .number "7"),
         ("title", .string "</h3><script>alert(1)</script>"),
         ("description", .string "a & \"b\""), ("link", .null)])) = .ok node ∧
      node.innerHTML =
        "\n        <div class=\"update-header\">" ++
        "\n            <span class=\"update-date\">" ++ "undefined" ++ "</span>" ++
        "\n            <span class=\"update-type\">" ++ "7" ++ "</span>" ++
        "\n        </div>" ++
        "\n        " ++ "<h3 class=\"update-title\">" ++ "</h3><script>alert(1)</script>" ++
          "</h3>" ++
        "\n        " ++ "<p class=\"update-description\">" ++ "a & \"b\"" ++ "</p>" ++
        "\n        <a href=\"" ++ "null" ++ "\" class=\"update-link\">Learn more</a>" ++
        "\n    " :=
  (title_and_description_inserted_raw.1
    [("type", .number "7"), ("title", .string "</h3><script>alert(1)</script>"),
     ("description", .string "a & \"b\""), ("link", .null)]
    "</h3><script>alert(1)</script>" "a & \"b\"" rfl rfl).2 "undefined" "7" "null" rfl rfl rfl

/-- C7: error containment. When the container element exists, the promise chain
of the handler ends fulfilled for every outcome of the fetch, every decoder and
every decoded value; and the catch callback raises no error for any error it is
given. -/
theorem no_error_escapes_the_handler (jsonParse : String → Except JSError Json)
    (fetched : Except JSError Response) (children : List Child)
    (console : List (String × JSError)) :
    (handler jsonParse fetched ⟨some children, console⟩).2 = .ok () ∧
    ∀ e : JSError, (showError e ⟨some children, console⟩).2 = .ok () := by
  constructor
  · rcases handler_settled jsonParse fetched children console with
      ⟨_, _, _, _, _, _, _, _, h⟩ | ⟨_, h⟩ <;> rw [h]
  · intro e
    rfl

/-- Counterexample of C8: the body `{}` decodes as JSON, and the error paragraph
is shown all the same: `data.updates` is `undefined`, and reading its `forEach`
raises a `TypeError` that the catch callback handles. -/
theorem error_shown_for_decoded_body :
    sampleParse "\x7b\x7d" = .ok (.object []) ∧
    handler sampleParse (.ok ⟨200, "\x7b\x7d"⟩) ⟨some [], []⟩ =
      (⟨some [Child.markup
          "<p class=\"error\">Unable to load updates. Please try again later.</p>"],
        [("Error loading updates:", JSError.typeError)]⟩, .ok ()) := by
  constructor <;> rfl

/-- C8, amended: the error paragraph is shown exactly when the request is
rejected, or the body fails to decode as JSON, or the second `then` callback
raises an error, which is when the decoded value is not an object whose
`updates` is an array all of whose records render. For a response whose body
decodes to an object whose `updates` is a list of well-formed records the error
paragraph is not shown. -/
theorem error_shown_iff_chain_rejected (jsonParse : String → Except JSError Json)
    (fetched : Except JSError Response) (children : List Child)
    (console : List (String × JSError)) :
    ((∃ e, handler jsonParse fetched ⟨some children, console⟩ =
        (⟨some [Child.markup errorMarkup], console ++ [(errorLabel, e)]⟩, .ok ())) ↔
      ((∃ e, fetched = .error e) ∨
       (∃ response e, fetched = .ok response ∧ jsonParse response.body = .error e) ∨
       (∃ response data, fetched = .ok response ∧ jsonParse response.body = .ok data ∧
          ¬ ∃ props records nodes, data = .object props ∧
            lookup props "updates" = some (.array records) ∧
            List.Forall₂ (fun record node => createUpdateElement (.json record) = .ok node)
              records nodes))) ∧
    (∀ response props records, fetched = .ok response →
      jsonParse response.body = .ok (.object props) →
      lookup props "updates" = some (.array records) →
      (∀ r ∈ records, wellFormed r = true) →
      ¬ ∃ e, handler jsonParse fetched ⟨some children, console⟩ =
        (⟨some [Child.markup errorMarkup], console ++ [(errorLabel, e)]⟩, .ok ())) := by
  have hsuccess : ∀ response props records nodes, fetched = .ok response →
      jsonParse response.body = .ok (.object props) →
      lookup props "updates" = some (.array records) →
      List.Forall₂ RendersTo records nodes →
      ¬ ∃ e, handler jsonParse fetched ⟨some children, console⟩ =
        (⟨some [Child.markup errorMarkup], console ++ [(errorLabel, e)]⟩, .ok ()) := by
    intro response props records nodes hfetched hdecode hupdates hnodes ⟨e, he⟩
    subst hfetched
    rw [handler_rendered jsonParse response props records nodes hdecode hupdates hnodes
      children console] at he
    have hconsole := congrArg (fun r => r.1.console) he
    exact console_ne_append console _ hconsole
  constructor
  · constructor
    · intro hshown
      cases fetched with
      | error e => exact Or.inl ⟨e, rfl⟩
      | ok response =>
        cases hdecode : jsonParse response.body with
        | error e => exact Or.inr (Or.inl ⟨response, e, rfl, hdecode⟩)
        | ok data =>
          refine Or.inr (Or.inr ⟨response, data, rfl, hdecode, ?_⟩)
          rintro ⟨props, records, nodes, hdata, hupdates, hnodes⟩
          subst hdata
          exact hsuccess response props records nodes rfl hdecode hupdates hnodes hshown
    · intro hcause
      rcases handler_settled jsonParse fetched children console with
        ⟨response, props, records, nodes, hfetched, hdecode, hupdates, hnodes, _⟩ | hshown
      · exfalso
        rcases hcause with ⟨e, he⟩ | ⟨response', e, hresponse, he⟩ |
          ⟨response', data, hresponse, hdata, hnot⟩
        · rw [he] at hfetched
          cases hfetched
        · rw [hresponse] at hfetched
          cases hfetched
          rw [hdecode] at he
          cases he
        · rw [hresponse] at hfetched
          cases hfetched
          rw [hdecode] at hdata
          cases hdata
          exact hnot ⟨props, records, nodes, rfl, hupdates, hnodes⟩
      · exact hshown
  · intro response props records hfetched hdecode hupdates hwf
    obtain ⟨nodes, hnodes⟩ :=
      all_render records (fun r hr => wellFormedOrMissing_renders r (wellFormedOrMissing_of_wellFormed r (hwf r hr)))
    exact hsuccess response props records nodes hfetched hdecode hupdates hnodes

/-- Witness of C8, amended: for the scenario of the specification the error
paragraph is not shown. -/
theorem error_shown_iff_chain_rejected_witness :
    ¬ ∃ e, handler sampleParse (.ok ⟨200, scenarioBody⟩) ⟨some [], []⟩ =
      (⟨some [Child.markup errorMarkup], [] ++ [(errorLabel, e)]⟩, .ok ()) :=
  (error_shown_iff_chain_rejected sampleParse (.ok ⟨200, scenarioBody⟩) [] []).2
    ⟨200, scenarioBody⟩ [("updates", .array [scenarioRecord])] [scenarioRecord] rfl (by rfl)
    (by rfl) (by intro r hr; rw [List.mem_singleton] at hr; subst hr; rfl)

/-- C9: the HTTP status is not consulted. Two responses with the same body and
different statuses leave every page in the same final state; and a response of
any status, 404 included, whose body decodes to an object whose `updates` is a
list of well-formed records is rendered as one node per record, with nothing
logged and no error markup. -/
theorem status_is_not_consulted :
    (∀ (jsonParse : String → Except JSError Json) (status₁ status₂ : Nat) (body : String)
        (page : Page),
      handler jsonParse (.ok ⟨status₁, body⟩) page =
        handler jsonParse (.ok ⟨status₂, body⟩) page) ∧
    (∀ (jsonParse : String → Except JSError Json) (status : Nat) (body : String)
        (children : List Child) (console : List (String × JSError))
        (props : List (String × Json)) (records : List Json),
      jsonParse body = .ok (.object props) →
      lookup props "updates" = some (.array records) →
      (∀ r ∈ records, wellFormed r = true) →
      ∃ nodes : List Element,
        List.Forall₂ (fun record node => createUpdateElement (.json record) = .ok node)
          records nodes ∧
        nodes.length = records.length ∧
        handler jsonParse (.ok ⟨status, body⟩) ⟨some children, console⟩ =
          (⟨some (children ++ nodes.map Child.element), console⟩, .ok ())) := by
  constructor
  · intro jsonParse status₁ status₂ body page
    rfl
  · intro jsonParse status body children console props records hdecode hupdates hwf
    exact handler_records jsonParse ⟨status, body⟩ props records hdecode hupdates
      (fun r hr => wellFormedOrMissing_renders r (wellFormedOrMissing_of_wellFormed r (hwf r hr))) children console

/-- Witness of C9: the scenario of the specification served with status 404. -/
theorem status_is_not_consulted_witness :
    ∃ nodes : List Element,
      List.Forall₂ (fun record node => createUpdateElement (.json record) = .ok node)
        [scenarioRecord] nodes ∧
      nodes.length = [scenarioRecord].length ∧
      handler sampleParse (.ok ⟨404, scenarioBody⟩) ⟨some [], []⟩ =
        (⟨some ([] ++ nodes.map Child.element), []⟩, .ok ()) :=
  status_is_not_consulted.2 sampleParse 404 scenarioBody [] []
    [("updates", .array [scenarioRecord])] [scenarioRecord] (by rfl) (by rfl)
    (by intro r hr; rw [List.mem_singleton] at hr; subst hr; rfl)

/-- Counterexample of C10: the record `{"title":{"toString":1}}` is a non-null
object in which date, type, description and link are absent, and
`createUpdateElement` raises a `TypeError` on it: its title is an object whose
own `toString` is not a function, so it has no string conversion. -/
theorem missing_fields_record_raises :
    lookup [("title", Json.object [("toString", .number "1")])] "date" = none ∧
    lookup [("title", Json.object [("toString", .number "1")])] "type" = none ∧
    lookup [("title", Json.object [("toString", .number "1")])] "description" = none ∧
    lookup [("title", Json.object [("toString", .number "1")])] "link" = none ∧
    createUpdateElement (.json (.object [("title", .object [("toString", .number "1")])])) =
      .error JSError.typeError := by
  refine ⟨rfl, rfl, rfl, rfl, rfl⟩

/-- C10, amended: missing fields are rendered, not rejected, provided the
present fields can be converted. On every object the substitution of an absent
field raises no error and gives the text `undefined`, and so does every field
of an array. For every record the node is the template with the texts of the
five substitutions in their places, so each absent field's place holds
`undefined`; in particular when each field is absent or a string, and for the
empty record the class is `update-item undefined` and the `href` is
`undefined`. A record that is an array, or an object in which each of the five
fields is absent or has a string conversion, raises no error; a response made
of such records takes the success path: one node per record, nothing logged, no
error markup. -/
theorem missing_fields_render_as_undefined :
    (∀ (props : List (String × Json)) (field : String), lookup props field = none →
      evalTemplate (.json (.object props)) [.subst field] = .ok "undefined") ∧
    (∀ (items : List Json) (field : String), field ≠ "forEach" →
      evalTemplate (.json (.array items)) [.subst field] = .ok "undefined") ∧
    (∀ (record : Json) (date type title description link : String),
      evalTemplate (.json record) [.subst "date"] = .ok date →
      evalTemplate (.json record) [.subst "type"] = .ok type →
      evalTemplate (.json record) [.subst "title"] = .ok title →
      evalTemplate (.json record) [.subst "description"] = .ok description →
      evalTemplate (.json record) [.subst "link"] = .ok link →
      createUpdateElement (.json record) =
        .ok { tagName := "div",
              className := "update-item " ++ type,
              innerHTML :=
                "\n        <div class=\"update-header\">" ++
                "\n            <span class=\"update-date\">" ++ date ++ "</span>" ++
                "\n            <span class=\"update-type\">" ++ type ++ "</span>" ++
                "\n        </div>" ++
                "\n        <h3 class=\"update-title\">" ++ title ++ "</h3>" ++
                "\n        <p class=\"update-description\">" ++ description ++ "</p>" ++
                "\n        <a href=\"" ++ link ++ "\" class=\"update-link\">Learn more</a>" ++
                "\n    " }) ∧
    (∀ (props : List (String × Json)) (date type title description link : Option String),
      lookup props "date" = date.map Json.string →
      lookup props "type" = type.map Json.string →
      lookup props "title" = title.map Json.string →
      lookup props "description" = description.map Json.string →
      lookup props "link" = link.map Json.string →
      createUpdateElement (.json (.object props)) =
        .ok { tagName := "div",
              className := "update-item " ++ type.getD "undefined",
              innerHTML :=
                "\n        <div class=\"update-header\">" ++
                "\n            <span class=\"update-date\">" ++ date.getD "undefined" ++
                  "</span>" ++
                "\n            <span class=\"update-type\">" ++ type.getD "undefined" ++
                  "</span>" ++
                "\n        </div>" ++
                "\n        <h3 class=\"update-title\">" ++ title.getD "undefined" ++ "</h3>" ++
                "\n        <p class=\"update-description\">" ++
                  description.getD "undefined" ++ "</p>" ++
                "\n        <a href=\"" ++ link.getD "undefined" ++
                  "\" class=\"update-link\">Learn more</a>" ++
                "\n    " }) ∧
    createUpdateElement (.json (.object [])) =
      .ok { tagName := "div",
            className := "update-item undefined",
            innerHTML :=
              "\n        <div class=\"update-header\">" ++
              "\n            <span class=\"update-date\">undefined</span>" ++
              "\n            <span class=\"update-type\">undefined</span>" ++
              "\n        </div>" ++
              "\n        <h3 class=\"update-title\">undefined</h3>" ++
              "\n        <p class=\"update-description\">undefined</p>" ++
              "\n        <a href=\"undefined\" class=\"update-link\">Learn more</a>" ++
              "\n    " } ∧
    (∀ record : Json, convertibleOrMissing record = true →
      ∃ node, createUpdateElement (.json record) = .ok node) ∧
    (∀ (jsonParse : String → Except JSError Json) (response : Response)
        (children : List Child) (console : List (String × JSError))
        (props : List (String × Json)) (records : List Json),
      jsonParse response.body = .ok (.object props) →
      lookup props "updates" = some (.array records) →
      (∀ r ∈ records, convertibleOrMissing r = true) →
      ∃ nodes : List Element,
        List.Forall₂ (fun record node => createUpdateElement (.json record) = .ok node)
          records nodes ∧
        nodes.length = records.length ∧
        handler jsonParse (.ok response) ⟨some children, console⟩ =
          (⟨some (children ++ nodes.map Child.element), console⟩, .ok ())) := by
  refine ⟨?_, ?_, ?_, ?_, ?_, ?_, ?_⟩
  · intro props field hfield
    exact evalTemplate_subst_absent props field hfield
  · intro items field hfield
    exact evalTemplate_subst_array items field hfield
  · intro record date type title description link hdate htype htitle hdescription hlink
    rw [createUpdateElement_texts _ date type title description link
      hdate htype htitle hdescription hlink]
    simp [updateMarkup, String.append_assoc]
  · intro props date type title description link hdate htype htitle hdescription hlink
    rw [createUpdateElement_fields props date type title description link
      hdate htype htitle hdescription hlink]
    simp [updateMarkup, String.append_assoc]
  · simp [createUpdateElement, evalTemplate, classNameTemplate, innerHTMLTemplate, getProp,
      lookup, toStringJS]
  · intro record hrecord
    exact convertibleOrMissing_renders record hrecord
  · intro jsonParse response children console props records hdecode hupdates hrecords
    exact handler_records jsonParse response props records hdecode hupdates
      (fun r hr => convertibleOrMissing_renders r (hrecords r hr)) children console

/-- Witness of C10, amended: the body `{"updates":[{"title":"v1.0"}]}`, whose
only record has a title and nothing else. -/
theorem missing_fields_render_as_undefined_witness :
    ∃ nodes : List Element,
      List.Forall₂ (fun record node => createUpdateElement (.json record) = .ok node)
        [.object [("title", .string "v1.0")]] nodes ∧
      nodes.length = [Json.object [("title", .string "v1.0")]].length ∧
      handler sampleParse (.ok ⟨200, "\x7b\"updates\":[\x7b\"title\":\"v1.0\"\x7d]\x7d"⟩)
          ⟨some [], []⟩ =
        (⟨some ([] ++ nodes.map Child.element), []⟩, .ok ()) :=
  missing_fields_render_as_undefined.2.2.2.2.2.2 sampleParse
    ⟨200, "\x7b\"updates\":[\x7b\"title\":\"v1.0\"\x7d]\x7d"⟩ [] []
    [("updates", .array [.object [("title", .string "v1.0")]])]
    [.object [("title", .string "v1.0")]] (by rfl) (by rfl)
    (by intro r hr; rw [List.mem_singleton] at hr; subst hr; rfl)

/-! ## Remarks -/

/-- When the page has no element with id `updateFeed`, the catch callback itself
raises a `TypeError`, and the chain ends rejected: the hypothesis of C7 that the
container exists is needed. -/
theorem handler_without_container_rejects (jsonParse : String → Except JSError Json)
    (e : JSError) (console : List (String × JSError)) :
    handler jsonParse (.error e) ⟨none, console⟩ =
      (⟨none, console ++ [(errorLabel, e)]⟩, .error JSError.typeError) := by
  rfl

end UpdateFeed
